import Mathlib

/-
Verification development for the AI-Travel-Planner application (src/app.py).

The application is a Streamlit script that orchestrates calls to a hosted
generation service.  The non-UI logic is embedded shallowly below:

  - Python strings are Lean Strings; substring tests (the Python "in"
    operator) are modelled over the underlying character lists.
  - JSON values produced by json.loads are modelled by the inductive Json,
    with JSON numbers modelled as rationals.
  - Python exceptions are modelled by the inductive PyExc; fallible code is
    written in the Except monad, and a try/except block is a match on the
    Except value.
  - The itinerary data handled by regenerate_activity and by the generate
    handler is kept at the Json level, because those code paths apply
    dictionary operations to unvalidated service output.  The rendering-side
    computations (calculate_sustainability, the most-expensive scan, the
    prompt builder) are embedded over typed records mirroring the schema,
    with optional fields standing for the dict.get accesses of the source.
-/

set_option maxHeartbeats 1000000
set_option maxRecDepth 4000

/-- Lowercasing of a Python string, per character (str.lower). -/
def lowerStr (s : List Char) : List Char := s.map Char.toLower

/-- Character-list version of startsWith, used to model the Python
substring operator. -/
def isPrefixOfChars : List Char → List Char → Bool
  | [], _ => true
  | _ :: _, [] => false
  | a :: as, b :: bs => a == b && isPrefixOfChars as bs

/-- Python substring test: containsSub n h models (n in h) for strings. -/
def containsSub (needle : List Char) : List Char → Bool
  | [] => needle.isEmpty
  | c :: t => isPrefixOfChars needle (c :: t) || containsSub needle t

/-- Exceptions that the embedded code can raise.  JSONDecodeError is a
subclass of ValueError in Python; that subclass relation is captured by
the isValueError predicate below, not by the constructor layout. -/
inductive PyExc where
  | apiError (msg : String)
  | jsonDecodeError (msg : String)
  | valueError (msg : String)
  | keyError (key : String)
  | indexError
  | typeError (msg : String)
  | attributeError (msg : String)
deriving DecidableEq, Repr

/-- Python isinstance check against google.genai.errors.APIError. -/
def isAPIError : PyExc → Bool
  | .apiError _ => true
  | _ => false

/-- Python isinstance check against ValueError.  json.JSONDecodeError is a
subclass of ValueError, so it is included. -/
def isValueError : PyExc → Bool
  | .valueError _ => true
  | .jsonDecodeError _ => true
  | _ => false

/-- Python isinstance check against json.JSONDecodeError (exact subclass). -/
def isJSONDecodeError : PyExc → Bool
  | .jsonDecodeError _ => true
  | _ => false

/-- JSON values as returned by json.loads.  Numbers are modelled as
rationals; on the cost paths every number is an integer, where Python
arithmetic agrees exactly with rational arithmetic. -/
inductive Json where
  | null
  | bool (b : Bool)
  | num (n : Rat)
  | str (s : String)
  | arr (elems : List Json)
  | obj (fields : List (String × Json))

/-- First-match association lookup on the field list of a JSON object. -/
def lookupField (key : String) : List (String × Json) → Option Json
  | [] => none
  | (k, v) :: rest => if k = key then some v else lookupField key rest

/-- Python dictionary assignment d[key] = v: replace the value in place if
the key is present, otherwise append the pair. -/
def setField (key : String) (v : Json) : List (String × Json) → List (String × Json)
  | [] => [(key, v)]
  | (k, w) :: rest =>
      if k = key then (key, v) :: rest else (k, w) :: setField key v rest

/-- Python subscript j[key] with a string key: KeyError when the key is
absent from a dict, TypeError when j is not a dict. -/
def subscr (j : Json) (key : String) : Except PyExc Json :=
  match j with
  | .obj fields =>
      match lookupField key fields with
      | some v => .ok v
      | none => .error (.keyError key)
  | _ => .error (.typeError "value is not subscriptable with a string key")

/-- Python d.get(key, default): AttributeError when the receiver is not a
dict. -/
def pyGet (j : Json) (key : String) (dflt : Json) : Except PyExc Json :=
  match j with
  | .obj fields => .ok ((lookupField key fields).getD dflt)
  | _ => .error (.attributeError "get")

/-- Numeric coercion used by Python arithmetic and numeric formatting.
Python booleans are integers. -/
def asNum (j : Json) : Except PyExc Rat :=
  match j with
  | .num n => .ok n
  | .bool b => .ok (if b then 1 else 0)
  | _ => .error (.typeError "unsupported operand type")

/-- Python subtraction a - b over JSON values. -/
def pySub (a b : Json) : Except PyExc Rat := do
  let x ← asNum a
  let y ← asNum b
  .ok (x - y)

/-- Python addition a + b where a is already an integer. -/
def pyAdd (a : Rat) (b : Json) : Except PyExc Rat := do
  let y ← asNum b
  .ok (a + y)

/-- Python list subscript l[i] for a natural index. -/
def listGet (l : List Json) (i : Nat) : Except PyExc Json :=
  match l.get? i with
  | some x => .ok x
  | none => .error .indexError

/-- Coercion of the value of day["activities"] to a list before indexing.
A non-list value fails here: indexing it with an integer or subscripting
its element with a string key raises in the source before any state is
touched. -/
def asList (j : Json) : Except PyExc (List Json) :=
  match j with
  | .arr xs => .ok xs
  | _ => .error (.typeError "value is not a list")

/-- Python subscript j[0] applied to the parsed replacement response
(json.loads(response.text)[0] at line 166 of src/app.py). -/
def pyIndex0 (j : Json) : Except PyExc Json :=
  match j with
  | .arr [] => .error .indexError
  | .arr (x :: _) => .ok x
  | .str s =>
      match s.data with
      | [] => .error .indexError
      | c :: _ => .ok (.str (String.mk [c]))
  | .obj _ => .error (.keyError "0")
  | _ => .error (.typeError "value is not subscriptable")

/-- Dictionary update at the Json level; the call sites only reach this
with an object (established by an earlier successful subscript). -/
def objSetJ (j : Json) (key : String) (v : Json) : Json :=
  match j with
  | .obj fields => .obj (setField key v fields)
  | _ => j

/-- Outcome of a call to regenerate_activity: the itinerary held in session
state afterwards, and whether the success branch (st.success and st.rerun,
lines 175-176) was reached rather than the except branch (line 178). -/
structure RegenOutcome where
  itinerary : List Json
  succeeded : Bool

/-- Body of the try block of regenerate_activity (src/app.py lines 151-176),
after the pieces read before the try.  The resp argument is the combined
outcome of client.models.generate_content plus json.loads(response.text):
an APIError from the call or a JSONDecodeError from parsing, or the parsed
JSON value.  Returns the updated itinerary list. -/
def regen_try (day old_activity : Json) (acts : List Json)
    (current_itinerary : List Json) (day_index activity_index : Nat)
    (resp : Except PyExc Json) (cost_key : String) : Except PyExc (List Json) := do
  let parsed ← resp
  let new_activity ← pyIndex0 parsed
  let old_cost ← subscr old_activity "estimatedCostINR"
  let new_cost ← pyGet new_activity "estimatedCostINR" (.num 0)
  let base ← pyGet day cost_key (.num 0)
  let diff ← pySub base old_cost
  let summary ← pyAdd diff new_cost
  let day1 := objSetJ day cost_key (.num summary)
  let day2 := objSetJ day1 "activities" (.arr (acts.set activity_index new_activity))
  .ok (current_itinerary.set day_index day2)

/-- Embedding of regenerate_activity (src/app.py lines 134-179).  The steps
before the try block read the day, the old activity, and the fields used by
the user prompt (line 139-148) and the spinner text (line 150); an error in
those raises out of the function uncaught.  Errors inside the try block are
caught and leave the itinerary unchanged. -/
def regenerate_activity (current_itinerary : List Json)
    (day_index activity_index : Nat) (resp : Except PyExc Json)
    (cost_key : String) : Except PyExc RegenOutcome := do
  let day ← listGet current_itinerary day_index
  let acts ← asList (← subscr day "activities")
  let old_activity ← listGet acts activity_index
  let _ ← subscr day "theme"
  let _ ← subscr old_activity "time"
  let _ ← subscr old_activity "description"
  let _ ← asNum (← subscr old_activity "estimatedCostINR")
  let _ ← subscr day "day"
  match regen_try day old_activity acts current_itinerary day_index activity_index resp cost_key with
  | .ok updated => .ok ⟨updated, true⟩
  | .error _ => .ok ⟨current_itinerary, false⟩

/-- Session state touched by the generation and refinement paths: the
current itinerary and the cached total trip cost. -/
structure SessionState where
  itinerary : List Json
  total_trip_cost : Rat

/-- Session-level effect of an activity replacement: regenerate_activity
assigns st.session_state.itinerary (line 174) and never touches
st.session_state.total_trip_cost. -/
def swap_step (s : SessionState) (day_index activity_index : Nat)
    (resp : Except PyExc Json) : Except PyExc SessionState :=
  (regenerate_activity s.itinerary day_index activity_index resp
    "dailyBudgetSummaryINR").map (fun o => ⟨o.itinerary, s.total_trip_cost⟩)

/-- Budget contribution of one day in the total-cost sum:
day.get("dailyBudgetSummaryINR", 0) used as a number (lines 267, 292,
298, 302 of src/app.py). -/
def day_budget (day : Json) : Except PyExc Rat := do
  asNum (← pyGet day "dailyBudgetSummaryINR" (.num 0))

/-- Left fold of the Python sum over day budgets, carrying the running
total. -/
def pySum_from (acc : Rat) : List Json → Except PyExc Rat
  | [] => .ok acc
  | day :: rest => do pySum_from (acc + (← day_budget day)) rest

/-- sum(day.get("dailyBudgetSummaryINR", 0) for day in days). -/
def pySumBudgets (days : List Json) : Except PyExc Rat := pySum_from 0 days

/-- Message of the shape error raised by the generate handler
(src/app.py line 289). -/
def shape_error_msg : String := "Model output did not return a valid list structure."

/-- Generation Client for the full itinerary (generate_itinerary,
src/app.py lines 109-132): the remote call may raise APIError, and
json.loads may raise JSONDecodeError; otherwise the parsed JSON value is
returned.  The call outcome and the parser are parameters of the model. -/
def generate_itinerary (call_result : Except PyExc String)
    (json_loads : String → Except PyExc Json) : Except PyExc Json := do
  json_loads (← call_result)

/-- Shape handling in the generate handler (src/app.py lines 285-289): a
list is accepted as-is; a dict carrying the key "itinerary" silently
contributes the value under that key, whatever it is; anything else raises
ValueError. -/
def resolve_shape (j : Json) : Except PyExc Json :=
  match j with
  | .arr _ => .ok j
  | .obj fields =>
      match lookupField "itinerary" fields with
      | some v => .ok v
      | none => .error (.valueError shape_error_msg)
  | _ => .error (.valueError shape_error_msg)

/-- Iteration over the resolved itinerary value performed by the total-cost
sum at line 292.  Iterating a dict yields its keys, which are strings, so
the first day.get call raises AttributeError unless the dict is empty; an
empty dict is modelled by the empty day list it yields.  Non-iterable
values raise TypeError. -/
def iter_days (j : Json) : Except PyExc (List Json) :=
  match j with
  | .arr xs => .ok xs
  | .obj [] => .ok []
  | .obj (_ :: _) => .error (.attributeError "get")
  | .str s => if s.data.isEmpty then .ok [] else .error (.attributeError "get")
  | _ => .error (.typeError "value is not iterable")

/-- Fallible part of the generate handler (src/app.py lines 272-293):
generate, resolve the shape, store the itinerary and recompute the total.
When the sum raises after the itinerary assignment at line 291, the except
branch overwrites both fields with the mock data, so the intermediate
assignment has no surviving effect and is not modelled separately. -/
def generation_attempt (call_result : Except PyExc String)
    (json_loads : String → Except PyExc Json) : Except PyExc SessionState := do
  let data ← resolve_shape (← generate_itinerary call_result json_loads)
  let days ← iter_days data
  let total ← pySumBudgets days
  .ok ⟨days, total⟩

/-- Classification a caller can perform on a caught generation exception
with isinstance checks, in the order required by the class hierarchy
(JSONDecodeError before its superclass ValueError). -/
inductive GenFailureKind where
  | service
  | parse
  | shape
deriving DecidableEq, Repr

/-- Caller-side discrimination of the three generation failure kinds. -/
def classify_failure (e : PyExc) : GenFailureKind :=
  if isAPIError e then .service
  else if isJSONDecodeError e then .parse
  else .shape

/-- Hardcoded offline demo itinerary (MOCK_ITINERARY, src/app.py
lines 183-197). -/
def MOCK_ITINERARY : List Json :=
  [ .obj
      [ ("day", .num 1),
        ("theme", .str "Charminar, Old City Heritage & Hyderabadi Cuisine"),
        ("activities", .arr
          [ .obj
              [ ("time", .str "10:00 AM"),
                ("description", .str "Visit Charminar and explore the surrounding Laad Bazaar (Hyderabad's main landmark)"),
                ("estimatedCostINR", .num 50),
                ("transportation", .str "TSRTC Bus from Koti, ‚Çπ15"),
                ("latitude", .num 17.3616),
                ("longitude", .num 78.4747) ],
            .obj
              [ ("time", .str "12:30 PM"),
                ("description", .str "Lunch: Famous Irani Chai and Osmania Biscuits at a local cafe near Charminar"),
                ("estimatedCostINR", .num 150),
                ("transportation", .str "Walk"),
                ("latitude", .num 17.3630),
                ("longitude", .num 78.4755) ],
            .obj
              [ ("time", .str "02:30 PM"),
                ("description", .str "Visit the Mecca Masjid (Free entry)"),
                ("estimatedCostINR", .num 0),
                ("transportation", .str "Walk"),
                ("latitude", .num 17.3608),
                ("longitude", .num 78.4747) ],
            .obj
              [ ("time", .str "05:00 PM"),
                ("description", .str "Explore the Telangana State Archaeology Museum (small entry fee)"),
                ("estimatedCostINR", .num 30),
                ("transportation", .str "Metro Red Line (Charminar to Nampally), ‚Çπ35"),
                ("latitude", .num 17.3917),
                ("longitude", .num 78.4746) ],
            .obj
              [ ("time", .str "07:30 PM"),
                ("description", .str "Dinner: Affordable Chicken or Veg Biryani at a student-friendly eatery"),
                ("estimatedCostINR", .num 350),
                ("transportation", .str "Metro, ‚Çπ40"),
                ("latitude", .num 17.4400),
                ("longitude", .num 78.4700) ] ]),
        ("dailyBudgetSummaryINR", .num 620),
        ("accommodationSuggestion", .str "Budget hostel in the Begumpet or Ameerpet area for central metro connectivity.") ] ]

/-- Session state assigned by the except branches of the generate handler
(src/app.py lines 296-302): the mock itinerary together with its freshly
summed total.  The sum over the mock data always succeeds; the error arm
of the match is unreachable and returns an arbitrary total. -/
def fallback_state : SessionState :=
  match pySumBudgets MOCK_ITINERARY with
  | .ok t => ⟨MOCK_ITINERARY, t⟩
  | .error _ => ⟨MOCK_ITINERARY, 0⟩

/-- Generate handler (src/app.py lines 271-302): on any exception out of
the attempt, both session fields are overwritten with the mock data. -/
def generation_handler (call_result : Except PyExc String)
    (json_loads : String → Except PyExc Json) : SessionState :=
  match generation_attempt call_result json_loads with
  | .ok s => s
  | .error _ => fallback_state

/-- Result of the module-level startup check (src/app.py lines 18-24):
when GEMINI_API_KEY is absent from the environment or empty, st.error and
st.stop() run and the script run terminates there; otherwise execution
proceeds with the key. -/
inductive StartupOutcome where
  | stopped
  | proceed (api_key : String)
deriving DecidableEq, Repr

/-- Embedding of the startup check.  The environment value is None or a
string; Python truthiness makes the empty string falsy. -/
def startup (env_key : Option String) : StartupOutcome :=
  match env_key with
  | none => .stopped
  | some k => if k = "" then .stopped else .proceed k

/-- is_demo_mode = not api_key (src/app.py line 261), evaluated in a run
that got past the startup check. -/
def is_demo_mode (api_key : String) : Bool := api_key = ""

/-- Whether a script run for the given environment reaches the demo-mode
branch of the main logic (src/app.py lines 265-269): the run must survive
the startup check and then have is_demo_mode true. -/
def demo_branch_taken (env_key : Option String) : Bool :=
  match startup env_key with
  | .stopped => false
  | .proceed k => is_demo_mode k

/-- Typed view of one activity as far as the rendering-side computations
read it; optional fields stand for dict.get accesses on schema output. -/
structure Activity where
  time : Option String
  description : Option String
  estimatedCostINR : Option Rat
  transportation : Option String
  latitude : Option Rat
  longitude : Option Rat
deriving DecidableEq, Repr

/-- Typed view of one day of the itinerary. -/
structure Day where
  day : Option Rat
  theme : Option String
  activities : Option (List Activity)
  dailyBudgetSummaryINR : Option Rat
deriving DecidableEq, Repr

/-- Sustainability scoring (calculate_sustainability, src/app.py
lines 90-107): one pass over all activities accumulating the green count
and the mention count, then the neutral default or the rounded, clamped
ratio.  Python round uses round-half-to-even, modelled by pyRound over the
exact rational value of the expression. -/
def pyRound (q : Rat) : Int :=
  if q - ⌊q⌋ < 1 / 2 then ⌊q⌋
  else if 1 / 2 < q - ⌊q⌋ then ⌊q⌋ + 1
  else if ⌊q⌋ % 2 = 0 then ⌊q⌋ else ⌊q⌋ + 1

/-- Lowercased transportation text of an activity:
act.get("transportation", "").lower() as a character list. -/
def transport_text (act : Activity) : List Char :=
  lowerStr (act.transportation.getD "").data

/-- Loop body test for the green counter: the lowered text contains
"metro", "bus" or "walk". -/
def is_green (act : Activity) : Bool :=
  containsSub "metro".data (transport_text act)
    || containsSub "bus".data (transport_text act)
    || containsSub "walk".data (transport_text act)

/-- Loop body test for the mention counter: the lowered text is non-empty
(Python truthiness of a string). -/
def has_transport (act : Activity) : Bool := !(transport_text act).isEmpty

/-- Embedding of calculate_sustainability. -/
def calculate_sustainability (itinerary : List Day) : Int :=
  let counts := itinerary.foldl
    (fun (p : Nat × Nat) day =>
      (day.activities.getD []).foldl
        (fun (q : Nat × Nat) act =>
          let q1 := if is_green act then (q.1 + 1, q.2) else q
          if has_transport act then (q1.1, q1.2 + 1) else q1) p)
    (0, 0)
  if counts.2 = 0 then 3
  else max 1 (min 5 (pyRound (((counts.1 : Rat) / (counts.2 : Rat)) * 5)))

/-- Flattened list of activities of an itinerary, in day order then
activity order; used to state the two counts independently of the loop. -/
def flat_acts (itinerary : List Day) : List Activity :=
  itinerary.flatMap (fun d => d.activities.getD [])

/-- Modelled from the spec wording of the sustainability algorithm: number
of activities whose transportation text contains a green keyword. -/
def greenCount (itinerary : List Day) : Nat := (flat_acts itinerary).countP is_green

/-- Modelled from the spec wording of the sustainability algorithm: number
of activities carrying non-empty transportation text. -/
def mentionedCount (itinerary : List Day) : Nat :=
  (flat_acts itinerary).countP has_transport

/-- Entry of the all_activities scan (src/app.py lines 324-331): the cost
read with act.get("estimatedCostINR", 0) together with the day and
activity indices assigned by the two enumerate loops. -/
structure ActRef where
  cost : Rat
  day_idx : Nat
  act_idx : Nat
deriving DecidableEq, Repr

/-- Inner enumerate loop of the scan, appending one entry per activity of
a day, with the running activity index. -/
def acts_entries (d : Nat) : Nat → List Activity → List ActRef
  | _, [] => []
  | a0, act :: rest =>
      ⟨act.estimatedCostINR.getD 0, d, a0⟩ :: acts_entries d (a0 + 1) rest

/-- Outer enumerate loop of the scan, with the running day index. -/
def all_activities_from : Nat → List Day → List ActRef
  | _, [] => []
  | d0, day :: rest =>
      acts_entries d0 0 (day.activities.getD []) ++ all_activities_from (d0 + 1) rest

/-- The flat list all_activities built by the scan. -/
def all_activities (itinerary : List Day) : List ActRef := all_activities_from 0 itinerary

/-- CPython max with a key function: iterate, replacing the current
maximum only when the key is strictly greater, so the first of several
maximal elements wins. -/
def pyMax (x : ActRef) : List ActRef → ActRef
  | [] => x
  | y :: ys => pyMax (if y.cost > x.cost then y else x) ys

/-- most_expensive = max(all_activities, key=lambda x: x["cost"])
(src/app.py line 334), defined when the scan found at least one entry
(the source guards the call with: if all_activities). -/
def most_expensive (itinerary : List Day) : Option ActRef :=
  match all_activities itinerary with
  | [] => none
  | x :: xs => some (pyMax x xs)

/-- Strict day-then-activity order on scan entries. -/
def lexBefore (a b : ActRef) : Prop :=
  a.day_idx < b.day_idx ∨ (a.day_idx = b.day_idx ∧ a.act_idx < b.act_idx)

/-- CURRENCY_CODE constant (src/app.py line 15). -/
def CURRENCY_CODE : String := "INR"

/-- Literal nightlife constraint sentence inserted into the prompt when
the skip toggle is on (src/app.py line 113). -/
def nightlife_phrase : String := "Ensure all activities are concluded by 6:00 PM (18:00)."

/-- User prompt built by generate_itinerary (src/app.py lines 113-122). -/
def itinerary_user_prompt (destination : String) (duration : Nat)
    (daily_budget : Nat) (interests : List String) (pace : String)
    (nightlife_skip : Bool) : String :=
  let nightlife_constraint := if nightlife_skip then nightlife_phrase else ""
  "Generate a " ++ toString duration ++ "-day student travel itinerary for "
    ++ destination ++ ". "
    ++ "Maximum total daily budget: " ++ toString daily_budget ++ " "
    ++ CURRENCY_CODE ++ ". "
    ++ "Primary interests: " ++ String.intercalate ", " interests ++ ". "
    ++ "Travel pace: " ++ pace ++ ". "
    ++ nightlife_constraint ++ " "
    ++ "Focus heavily on student-friendly options (cheap eats, free attractions, public transport). "
    ++ "The response must use the currency Indian Rupee (" ++ CURRENCY_CODE
    ++ ") and follow the provided schema strictly."

/-- Substring test at the String level. -/
def containsStr (needle hay : String) : Bool := containsSub needle.data hay.data

/-- Concrete schema-complete activity used by the refinement examples. -/
def exAct : Json :=
  .obj
    [ ("time", .str "10:00 AM"),
      ("description", .str "Visit the fort"),
      ("estimatedCostINR", .num 400),
      ("transportation", .str "Bus 721"),
      ("latitude", .num 17.4),
      ("longitude", .num 78.5) ]

/-- Concrete one-day itinerary holding exAct, with a consistent budget. -/
def exDay : Json :=
  .obj
    [ ("day", .num 1),
      ("theme", .str "Heritage"),
      ("activities", .arr [exAct]),
      ("dailyBudgetSummaryINR", .num 400) ]

/-- Concrete itinerary list for the refinement examples. -/
def exItin : List Json := [exDay]

/-- Replacement activity lacking the estimatedCostINR field (and the
coordinates), as an unvalidated service response may return. -/
def exActNoCost : Json :=
  .obj
    [ ("time", .str "10:00 AM"),
      ("description", .str "Stroll in the public park") ]

/-- Replacement activity carrying only a cost of 100. -/
def exAct100 : Json := .obj [("estimatedCostINR", .num 100)]

/-- Typed activity with cost 50 for the highest-cost scan scenario. -/
def c5Act50 : Activity :=
  ⟨some "10:00 AM", some "Walk the bazaar", some 50, some "Walk", none, none⟩

/-- Typed activity with cost 350 for the highest-cost scan scenario. -/
def c5Act350 : Activity :=
  ⟨some "07:30 PM", some "Biryani dinner", some 350, some "Metro", none, none⟩

/-- Typed one-day itinerary of the reduce-highest-cost scenario from the
specification: costs 50 and 350, daily budget 400. -/
def c5Itin : List Day :=
  [⟨some 1, some "Food", some [c5Act50, c5Act350], some 400⟩]

/-- Typed itinerary whose every transportation string contains "walk". -/
def c6WalkItin : List Day :=
  [⟨some 1, some "Old city", some
      [⟨some "10:00 AM", some "Charminar", some 50, some "Walk", none, none⟩,
       ⟨some "12:30 PM", some "Chai stop", some 150, some "walk along the river", none, none⟩],
    some 200⟩]

/-- Typed itinerary with no transportation text on any activity. -/
def c6NoneItin : List Day :=
  [⟨some 1, some "Museums", some
      [⟨some "11:00 AM", some "State museum", some 30, none, none, none⟩],
    some 30⟩]

theorem containsSub_nil_needle (h : List Char) : containsSub [] h = true := by
  induction h with
  | nil => rfl
  | cons c t ih => simp [containsSub, ih]

theorem isPrefixOfChars_append (n t : List Char) : isPrefixOfChars n (n ++ t) = true := by
  induction n with
  | nil => rfl
  | cons c cs ih => simp [isPrefixOfChars, ih]

theorem containsSub_of_append (n a b : List Char) : containsSub n (a ++ n ++ b) = true := by
  induction a with
  | nil =>
      cases n with
      | nil => simpa using containsSub_nil_needle b
      | cons c cs =>
          have hp := isPrefixOfChars_append (c :: cs) b
          simp only [List.nil_append, List.cons_append, containsSub, List.append_eq] at hp ⊢
          rw [hp]
          simp
  | cons x a' ih =>
      have hstep : (x :: a') ++ n ++ b = x :: (a' ++ n ++ b) := by simp
      rw [hstep]
      simp only [containsSub, List.append_eq]
      simp only [List.append_eq] at ih
      rw [ih]
      simp

theorem str_append_assoc (a b c : String) : a ++ b ++ c = a ++ (b ++ c) := by
  apply String.ext
  simp only [String.data_append, List.append_assoc]

theorem containsStr_seg (A N B H : String) (h : H = A ++ (N ++ B)) :
    containsStr N H = true := by
  subst h
  unfold containsStr
  rw [String.data_append, String.data_append, ← List.append_assoc]
  exact containsSub_of_append N.data A.data B.data

theorem prompt_decomp (dest : String) (du bu : Nat) (i : List String) (p : String) (s : Bool) :
    itinerary_user_prompt dest du bu i p s =
      "Generate a " ++ (toString du ++ ("-day student travel itinerary for " ++ (dest ++ (". " ++ ("Maximum total daily budget: " ++ (toString bu ++ (" " ++ (CURRENCY_CODE ++ (". " ++ ("Primary interests: " ++ (String.intercalate ", " i ++ (". " ++ ("Travel pace: " ++ (p ++ (". " ++ ((if s then nightlife_phrase else "") ++ (" " ++ ("Focus heavily on student-friendly options (cheap eats, free attractions, public transport). " ++ ("The response must use the currency Indian Rupee (" ++ (CURRENCY_CODE ++ ") and follow the provided schema strictly.")))))))))))))))))))) := by
  unfold itinerary_user_prompt
  simp only [str_append_assoc]

/-- C7: as universally stated, the claim is false: when one of the
free-form inputs itself embeds the nightlife instruction sentence, the
prompt contains that sentence even though nightlifeSkip is false.  Here
the destination is the instruction sentence. -/
theorem C7_counterexample :
    containsStr nightlife_phrase
      (itinerary_user_prompt nightlife_phrase 1 4500 ["Local Cuisine"] "Moderate" false) = true := by
  apply containsStr_seg ("Generate a " ++ toString (1 : Nat) ++ "-day student travel itinerary for ")
    nightlife_phrase
    (". " ++ "Maximum total daily budget: " ++ toString (4500 : Nat) ++ " " ++ CURRENCY_CODE ++ ". " ++ "Primary interests: " ++ String.intercalate ", " ["Local Cuisine"] ++ ". " ++ "Travel pace: " ++ "Moderate" ++ ". " ++ (if false then nightlife_phrase else "") ++ " " ++ "Focus heavily on student-friendly options (cheap eats, free attractions, public transport). " ++ "The response must use the currency Indian Rupee (" ++ CURRENCY_CODE ++ ") and follow the provided schema strictly.")
  rw [prompt_decomp]
  simp only [str_append_assoc]

/-- C7 (amended): for every input tuple, the itinerary prompt contains the
day count, the numeric budget ceiling with the currency code, the
comma-joined interest list and the pace; it contains the 18:00/6:00 PM
instruction whenever nightlifeSkip is true; and the only-if direction of
the instruction biconditional holds provided the free-form inputs do not
themselves embed the instruction sentence, stated as: the prompt built
with the skip flag off does not contain it. -/
theorem C7_prompt_fields (dest : String) (du bu : Nat) (i : List String)
    (p : String) (s : Bool) :
    containsStr (toString du) (itinerary_user_prompt dest du bu i p s) = true ∧
    containsStr (toString bu ++ " " ++ CURRENCY_CODE) (itinerary_user_prompt dest du bu i p s) = true ∧
    containsStr (String.intercalate ", " i) (itinerary_user_prompt dest du bu i p s) = true ∧
    containsStr p (itinerary_user_prompt dest du bu i p s) = true ∧
    (s = true → containsStr nightlife_phrase (itinerary_user_prompt dest du bu i p s) = true) ∧
    (containsStr nightlife_phrase (itinerary_user_prompt dest du bu i p false) = false →
      (containsStr nightlife_phrase (itinerary_user_prompt dest du bu i p s) = true ↔ s = true)) := by
  have h5 : ∀ s' : Bool, s' = true →
      containsStr nightlife_phrase (itinerary_user_prompt dest du bu i p s') = true := by
    intro s' hs'
    subst hs'
    apply containsStr_seg ("Generate a " ++ toString du ++ "-day student travel itinerary for " ++ dest ++ ". " ++ "Maximum total daily budget: " ++ toString bu ++ " " ++ CURRENCY_CODE ++ ". " ++ "Primary interests: " ++ String.intercalate ", " i ++ ". " ++ "Travel pace: " ++ p ++ ". ")
      nightlife_phrase
      (" " ++ "Focus heavily on student-friendly options (cheap eats, free attractions, public transport). " ++ "The response must use the currency Indian Rupee (" ++ CURRENCY_CODE ++ ") and follow the provided schema strictly.")
    rw [prompt_decomp]
    simp only [str_append_assoc, if_true]
  refine ⟨?_, ?_, ?_, ?_, h5 s, ?_⟩
  · apply containsStr_seg "Generate a " (toString du)
      ("-day student travel itinerary for " ++ dest ++ ". " ++ "Maximum total daily budget: " ++ toString bu ++ " " ++ CURRENCY_CODE ++ ". " ++ "Primary interests: " ++ String.intercalate ", " i ++ ". " ++ "Travel pace: " ++ p ++ ". " ++ (if s then nightlife_phrase else "") ++ " " ++ "Focus heavily on student-friendly options (cheap eats, free attractions, public transport). " ++ "The response must use the currency Indian Rupee (" ++ CURRENCY_CODE ++ ") and follow the provided schema strictly.")
    rw [prompt_decomp]
    simp only [str_append_assoc]
  · apply containsStr_seg ("Generate a " ++ toString du ++ "-day student travel itinerary for " ++ dest ++ ". " ++ "Maximum total daily budget: ")
      (toString bu ++ " " ++ CURRENCY_CODE)
      (". " ++ "Primary interests: " ++ String.intercalate ", " i ++ ". " ++ "Travel pace: " ++ p ++ ". " ++ (if s then nightlife_phrase else "") ++ " " ++ "Focus heavily on student-friendly options (cheap eats, free attractions, public transport). " ++ "The response must use the currency Indian Rupee (" ++ CURRENCY_CODE ++ ") and follow the provided schema strictly.")
    rw [prompt_decomp]
    simp only [str_append_assoc]
  · apply containsStr_seg ("Generate a " ++ toString du ++ "-day student travel itinerary for " ++ dest ++ ". " ++ "Maximum total daily budget: " ++ toString bu ++ " " ++ CURRENCY_CODE ++ ". " ++ "Primary interests: ")
      (String.intercalate ", " i)
      (". " ++ "Travel pace: " ++ p ++ ". " ++ (if s then nightlife_phrase else "") ++ " " ++ "Focus heavily on student-friendly options (cheap eats, free attractions, public transport). " ++ "The response must use the currency Indian Rupee (" ++ CURRENCY_CODE ++ ") and follow the provided schema strictly.")
    rw [prompt_decomp]
    simp only [str_append_assoc]
  · apply containsStr_seg ("Generate a " ++ toString du ++ "-day student travel itinerary for " ++ dest ++ ". " ++ "Maximum total daily budget: " ++ toString bu ++ " " ++ CURRENCY_CODE ++ ". " ++ "Primary interests: " ++ String.intercalate ", " i ++ ". " ++ "Travel pace: ")
      p
      (". " ++ (if s then nightlife_phrase else "") ++ " " ++ "Focus heavily on student-friendly options (cheap eats, free attractions, public transport). " ++ "The response must use the currency Indian Rupee (" ++ CURRENCY_CODE ++ ") and follow the provided schema strictly.")
    rw [prompt_decomp]
    simp only [str_append_assoc]
  · intro h
    cases s with
    | false => simp [h]
    | true => simp [h5 true rfl]

/-- C7 witness: the specification scenarios, with the amended theorem
applied at concrete inputs, both hypotheses discharged by evaluation. -/
theorem C7_witness :
    containsStr nightlife_phrase
      (itinerary_user_prompt "Hyderabad, India" 1 4500 ["Local Cuisine"] "Moderate" true) = true ∧
    (containsStr nightlife_phrase
      (itinerary_user_prompt "Hyderabad, India" 1 4500 ["Local Cuisine"] "Moderate" false) = true ↔ false = true) :=
  ⟨(C7_prompt_fields "Hyderabad, India" 1 4500 ["Local Cuisine"] "Moderate" true).2.2.2.2.1 rfl,
   (C7_prompt_fields "Hyderabad, India" 1 4500 ["Local Cuisine"] "Moderate" false).2.2.2.2.2 (by decide)⟩

/-- C1: evaluation of the startup check at the failing input.  With the
credential absent (or empty) the module-level check runs st.error with a
fatal-error message and st.stop(), terminating the script run before any
itinerary logic; and the demo-mode fallback branch of the main logic is
unreachable in every environment, because a run that survives startup
always carries a non-empty key, making is_demo_mode false. -/
theorem C1_missing_key_stops :
    startup none = StartupOutcome.stopped ∧
    startup (some "") = StartupOutcome.stopped ∧
    (∀ env_key : Option String, demo_branch_taken env_key = false) := by
  refine ⟨rfl, by simp [startup], ?_⟩
  intro env
  cases env with
  | none => rfl
  | some k =>
      by_cases hk : k = ""
      · subst hk
        simp [demo_branch_taken, startup]
      · simp [demo_branch_taken, startup, hk, is_demo_mode]

theorem exc_bind_ok {ε α β : Type} {m : Except ε α} {f : α → Except ε β} {out : β}
    (h : (m >>= f) = .ok out) : ∃ x, m = .ok x ∧ f x = .ok out := by
  cases m with
  | ok x => exact ⟨x, rfl, h⟩
  | error e => simp [Bind.bind, Except.bind] at h

/-- C2: whenever the Generation Client call made during an activity
replacement raises (APIError from the remote call or JSONDecodeError from
parsing), the try block fails before either mutation, the except branch
runs, and the itinerary afterwards is exactly the itinerary before the
call. -/
theorem C2_error_leaves_itinerary (itin : List Json) (d a : Nat) (ck : String)
    (e : PyExc) (out : RegenOutcome)
    (h : regenerate_activity itin d a (Except.error e) ck = .ok out) :
    out.itinerary = itin ∧ out.succeeded = false := by
  unfold regenerate_activity at h
  obtain ⟨day, h1, h⟩ := exc_bind_ok h
  obtain ⟨actsJ, h2, h⟩ := exc_bind_ok h
  obtain ⟨acts, h3, h⟩ := exc_bind_ok h
  obtain ⟨old_activity, h4, h⟩ := exc_bind_ok h
  obtain ⟨th, h5, h⟩ := exc_bind_ok h
  obtain ⟨tm, h6, h⟩ := exc_bind_ok h
  obtain ⟨ds, h7, h⟩ := exc_bind_ok h
  obtain ⟨cj, h8, h⟩ := exc_bind_ok h
  obtain ⟨cn, h9, h⟩ := exc_bind_ok h
  obtain ⟨dn, h10, h⟩ := exc_bind_ok h
  have hr : regen_try day old_activity acts itin d a (Except.error e) ck = .error e := rfl
  rw [hr] at h
  cases h
  exact ⟨rfl, rfl⟩

/-- C2 witness: a concrete replacement attempt on a well-formed one-day
itinerary whose Generation Client call raises an APIError; the session
itinerary is unchanged and the success branch is not reached. -/
theorem C2_witness :
    (⟨exItin, false⟩ : RegenOutcome).itinerary = exItin ∧
    (⟨exItin, false⟩ : RegenOutcome).succeeded = false :=
  C2_error_leaves_itinerary exItin 0 0 "dailyBudgetSummaryINR"
    (.apiError "rate limited") ⟨exItin, false⟩ (by rfl)

theorem ok_bind {ε α β : Type} (x : α) (f : α → Except ε β) :
    (Except.ok x >>= f) = f x := rfl

theorem lookup_setField_self (k : String) (v : Json) (fields : List (String × Json)) :
    lookupField k (setField k v fields) = some v := by
  induction fields with
  | nil => simp [setField, lookupField]
  | cons p rest ih =>
      obtain ⟨k', w⟩ := p
      by_cases hk : k' = k
      · subst hk
        simp [setField, lookupField]
      · simp [setField, lookupField, hk, ih]

theorem lookup_setField_other (k k' : String) (hne : k' ≠ k) (v : Json)
    (fields : List (String × Json)) :
    lookupField k' (setField k v fields) = lookupField k' fields := by
  induction fields with
  | nil =>
      simp only [setField, lookupField]
      rw [if_neg (fun hh => hne hh.symm)]
  | cons p rest ih =>
      obtain ⟨k0, w⟩ := p
      by_cases hk : k0 = k
      · subst hk
        simp only [setField, if_pos rfl, lookupField]
        rw [if_neg (fun hh => hne hh.symm), if_neg (fun hh => hne hh.symm)]
      · simp only [setField, if_neg hk, lookupField, ih]

theorem get?_set_self {α : Type} (l : List α) (i : Nat) (x v : α)
    (h : l.get? i = some x) : (l.set i v).get? i = some v := by
  induction l generalizing i with
  | nil => simp [List.get?] at h
  | cons y ys ih =>
      cases i with
      | zero => simp [List.set]
      | succ n =>
          simp only [List.get?] at h
          simpa [List.set] using ih n h

theorem subscr_ok_obj {j : Json} {k : String} {v : Json}
    (h : subscr j k = .ok v) :
    ∃ fields, j = .obj fields ∧ lookupField k fields = some v := by
  cases j with
  | obj fields =>
      refine ⟨fields, rfl, ?_⟩
      simp only [subscr] at h
      cases hl : lookupField k fields with
      | none => rw [hl] at h; cases h
      | some w => rw [hl] at h; cases h; rfl
  | null => simp [subscr] at h
  | bool b => simp [subscr] at h
  | num n => simp [subscr] at h
  | str s => simp [subscr] at h
  | arr xs => simp [subscr] at h

/-- Success path of regenerate_activity: with the pre-try reads succeeding
and the Generation Client returning a parsed non-empty array, the whole
call succeeds and applies exactly the two mutations of lines 171-172 of
src/app.py, yielding the updated itinerary. -/
theorem regen_success_eq
    (itin : List Json) (d a : Nat) (ck : String)
    (day oldAct newAct : Json) (acts rest : List Json)
    (th tm dsc dn ncj bj : Json) (oldC newC base : Rat)
    (h1 : itin.get? d = some day)
    (h2 : subscr day "activities" = .ok (.arr acts))
    (h3 : acts.get? a = some oldAct)
    (h4 : subscr day "theme" = .ok th)
    (h5 : subscr oldAct "time" = .ok tm)
    (h6 : subscr oldAct "description" = .ok dsc)
    (h7 : subscr oldAct "estimatedCostINR" = .ok (.num oldC))
    (h8 : subscr day "day" = .ok dn)
    (h9 : pyGet newAct "estimatedCostINR" (.num 0) = .ok ncj)
    (h9b : asNum ncj = .ok newC)
    (h10 : pyGet day ck (.num 0) = .ok bj)
    (h10b : asNum bj = .ok base) :
    regenerate_activity itin d a (Except.ok (.arr (newAct :: rest))) ck =
      .ok ⟨itin.set d
        (objSetJ (objSetJ day ck (.num (base - oldC + newC)))
          "activities" (.arr (acts.set a newAct))), true⟩ := by
  have e1 : listGet itin d = .ok day := by unfold listGet; rw [h1]
  have e2 : listGet acts a = .ok oldAct := by unfold listGet; rw [h3]
  have hnum : ∀ q : Rat, asNum (.num q) = .ok q := fun _ => rfl
  unfold regenerate_activity regen_try
  simp only [e1, e2, ok_bind, h2, asList, h4, h5, h6, h7, h8, pyIndex0,
    h9, h10, pySub, pyAdd, h9b, h10b, hnum]

/-- C3 (amended): when activity replacement succeeds, the day's
dailyBudgetSummaryINR equals its pre-call value (read with a default of 0)
minus the old activity's estimatedCostINR plus the replacement's
estimatedCostINR taken as 0 when the field is absent, and activities[a]
becomes the first element of the returned array, stored as-is; presence of
the schema-required fields in the stored activity is not checked. -/
theorem C3_swap_success (itin : List Json) (d a : Nat)
    (day oldAct newAct : Json) (acts rest : List Json)
    (th tm dsc dn ncj bj : Json) (oldC newC base : Rat)
    (h1 : itin.get? d = some day)
    (h2 : subscr day "activities" = .ok (.arr acts))
    (h3 : acts.get? a = some oldAct)
    (h4 : subscr day "theme" = .ok th)
    (h5 : subscr oldAct "time" = .ok tm)
    (h6 : subscr oldAct "description" = .ok dsc)
    (h7 : subscr oldAct "estimatedCostINR" = .ok (.num oldC))
    (h8 : subscr day "day" = .ok dn)
    (h9 : pyGet newAct "estimatedCostINR" (.num 0) = .ok ncj)
    (h9b : asNum ncj = .ok newC)
    (h10 : pyGet day "dailyBudgetSummaryINR" (.num 0) = .ok bj)
    (h10b : asNum bj = .ok base) :
    ∃ day2,
      regenerate_activity itin d a (Except.ok (.arr (newAct :: rest)))
          "dailyBudgetSummaryINR" = .ok ⟨itin.set d day2, true⟩ ∧
      subscr day2 "dailyBudgetSummaryINR" = .ok (.num (base - oldC + newC)) ∧
      subscr day2 "activities" = .ok (.arr (acts.set a newAct)) ∧
      (acts.set a newAct).get? a = some newAct := by
  obtain ⟨dayF, hday, hlk⟩ := subscr_ok_obj h2
  refine ⟨objSetJ (objSetJ day "dailyBudgetSummaryINR" (.num (base - oldC + newC)))
      "activities" (.arr (acts.set a newAct)), ?_, ?_, ?_, ?_⟩
  · exact regen_success_eq itin d a "dailyBudgetSummaryINR" day oldAct newAct acts rest
      th tm dsc dn ncj bj oldC newC base h1 h2 h3 h4 h5 h6 h7 h8 h9 h9b h10 h10b
  · subst hday
    simp only [objSetJ, subscr]
    rw [lookup_setField_other "activities" "dailyBudgetSummaryINR" (by decide) _ _,
      lookup_setField_self]
  · subst hday
    simp only [objSetJ, subscr]
    rw [lookup_setField_self]
  · exact get?_set_self acts a oldAct newAct h3

/-- C3: as stated the claim is false.  A concrete successful replacement
run in which the service returned an activity object lacking the
schema-required estimatedCostINR field (and the coordinates): the swap
succeeds, the budget is adjusted using 0 for the missing cost, and the
stored activity lacks the required field. -/
theorem C3_counterexample :
    regenerate_activity exItin 0 0 (Except.ok (.arr [exActNoCost]))
        "dailyBudgetSummaryINR" =
      .ok ⟨[.obj [("day", .num 1), ("theme", .str "Heritage"),
                  ("activities", .arr [exActNoCost]),
                  ("dailyBudgetSummaryINR", .num 0)]], true⟩ ∧
    subscr exActNoCost "estimatedCostINR" = .error (.keyError "estimatedCostINR") := by
  constructor
  · have h := regen_success_eq exItin 0 0 "dailyBudgetSummaryINR" exDay exAct exActNoCost
      [exAct] [] (.str "Heritage") (.str "10:00 AM") (.str "Visit the fort") (.num 1)
      (.num 0) (.num 400) 400 0 400
      rfl rfl rfl rfl rfl rfl rfl rfl rfl rfl rfl rfl
    rw [h]
    simp [exItin, exDay, objSetJ, setField, List.set]
  · rfl

/-- C3 witness: the amended theorem applied to a concrete well-formed
itinerary and a replacement carrying cost 100, all hypotheses discharged
by evaluation. -/
theorem C3_witness :
    ∃ day2,
      regenerate_activity exItin 0 0 (Except.ok (.arr [exAct100]))
          "dailyBudgetSummaryINR" = .ok ⟨exItin.set 0 day2, true⟩ ∧
      subscr day2 "dailyBudgetSummaryINR" = .ok (.num ((400 : Rat) - 400 + 100)) ∧
      subscr day2 "activities" = .ok (.arr ([exAct].set 0 exAct100)) ∧
      ([exAct].set 0 exAct100).get? 0 = some exAct100 :=
  C3_swap_success exItin 0 0 exDay exAct exAct100 [exAct] []
    (.str "Heritage") (.str "10:00 AM") (.str "Visit the fort") (.num 1)
    (.num 100) (.num 400) 400 100 400
    rfl rfl rfl rfl rfl rfl rfl rfl rfl rfl rfl rfl

/-- C10: when the returned replacement object lacks the estimatedCostINR
field, the cost 0 is used for it, so the day's budget summary decreases by
exactly the old activity's cost, and the replacement, still missing the
field, is stored into the itinerary. -/
theorem C10_missing_cost_defaults (itin : List Json) (d a : Nat)
    (day oldAct : Json) (acts rest : List Json)
    (newF : List (String × Json))
    (th tm dsc dn bj : Json) (oldC base : Rat)
    (h1 : itin.get? d = some day)
    (h2 : subscr day "activities" = .ok (.arr acts))
    (h3 : acts.get? a = some oldAct)
    (h4 : subscr day "theme" = .ok th)
    (h5 : subscr oldAct "time" = .ok tm)
    (h6 : subscr oldAct "description" = .ok dsc)
    (h7 : subscr oldAct "estimatedCostINR" = .ok (.num oldC))
    (h8 : subscr day "day" = .ok dn)
    (hmiss : lookupField "estimatedCostINR" newF = none)
    (h10 : pyGet day "dailyBudgetSummaryINR" (.num 0) = .ok bj)
    (h10b : asNum bj = .ok base) :
    ∃ day2,
      regenerate_activity itin d a (Except.ok (.arr (.obj newF :: rest)))
          "dailyBudgetSummaryINR" = .ok ⟨itin.set d day2, true⟩ ∧
      subscr day2 "dailyBudgetSummaryINR" = .ok (.num (base - oldC)) ∧
      subscr day2 "activities" = .ok (.arr (acts.set a (.obj newF))) ∧
      (acts.set a (.obj newF)).get? a = some (.obj newF) ∧
      subscr (.obj newF) "estimatedCostINR" = .error (.keyError "estimatedCostINR") := by
  obtain ⟨dayF, hday, hlk⟩ := subscr_ok_obj h2
  have h9 : pyGet (.obj newF) "estimatedCostINR" (.num 0) = .ok (.num 0) := by
    simp [pyGet, hmiss]
  have heq := regen_success_eq itin d a "dailyBudgetSummaryINR" day oldAct (.obj newF)
    acts rest th tm dsc dn (.num 0) bj oldC 0 base
    h1 h2 h3 h4 h5 h6 h7 h8 h9 rfl h10 h10b
  rw [add_zero] at heq
  refine ⟨objSetJ (objSetJ day "dailyBudgetSummaryINR" (.num (base - oldC)))
      "activities" (.arr (acts.set a (.obj newF))), heq, ?_, ?_, ?_, ?_⟩
  · subst hday
    simp only [objSetJ, subscr]
    rw [lookup_setField_other "activities" "dailyBudgetSummaryINR" (by decide) _ _,
      lookup_setField_self]
  · subst hday
    simp only [objSetJ, subscr]
    rw [lookup_setField_self]
  · exact get?_set_self acts a oldAct (.obj newF) h3
  · simp [subscr, hmiss]

/-- C10 witness: the theorem applied to the concrete itinerary and a
replacement object lacking the cost field. -/
theorem C10_witness :
    ∃ day2,
      regenerate_activity exItin 0 0 (Except.ok (.arr [exActNoCost]))
          "dailyBudgetSummaryINR" = .ok ⟨exItin.set 0 day2, true⟩ ∧
      subscr day2 "dailyBudgetSummaryINR" = .ok (.num ((400 : Rat) - 400)) ∧
      subscr day2 "activities" = .ok (.arr ([exAct].set 0 exActNoCost)) ∧
      ([exAct].set 0 exActNoCost).get? 0 = some exActNoCost ∧
      subscr exActNoCost "estimatedCostINR" = .error (.keyError "estimatedCostINR") :=
  have hm : lookupField "estimatedCostINR"
      [("time", Json.str "10:00 AM"),
       ("description", Json.str "Stroll in the public park")] = none := rfl
  C10_missing_cost_defaults exItin 0 0 exDay exAct [exAct] []
    [("time", .str "10:00 AM"), ("description", .str "Stroll in the public park")]
    (.str "Heritage") (.str "10:00 AM") (.str "Visit the fort") (.num 1) (.num 400)
    400 400
    rfl rfl rfl rfl rfl rfl rfl rfl hm rfl rfl

theorem pySum_from_shift (l : List Json) (acc δ T : Rat)
    (h : pySum_from acc l = .ok T) : pySum_from (acc + δ) l = .ok (T + δ) := by
  induction l generalizing acc T with
  | nil =>
      simp only [pySum_from] at h ⊢
      cases h
      rfl
  | cons day rest ih =>
      simp only [pySum_from] at h ⊢
      obtain ⟨b, hb, h'⟩ := exc_bind_ok h
      rw [hb, ok_bind]
      have := ih (acc + b) T h'
      rw [show acc + δ + b = acc + b + δ by ring]
      exact this

theorem pySum_set (l : List Json) (i : Nat) (day day' : Json) (b b' T acc : Rat)
    (hget : l.get? i = some day)
    (hb : day_budget day = .ok b) (hb' : day_budget day' = .ok b')
    (hsum : pySum_from acc l = .ok T) :
    pySum_from acc (l.set i day') = .ok (T - b + b') := by
  induction l generalizing i acc T with
  | nil => simp [List.get?] at hget
  | cons y ys ih =>
      cases i with
      | zero =>
          simp only [List.get?] at hget
          cases hget
          simp only [pySum_from, List.set] at hsum ⊢
          obtain ⟨b0, hb0, h'⟩ := exc_bind_ok hsum
          have hbb : b0 = b := by
            rw [hb0] at hb
            exact Except.ok.inj hb
          subst hbb
          rw [hb', ok_bind]
          have hs := pySum_from_shift ys (acc + b0) (b' - b0) T h'
          rw [show acc + b0 + (b' - b0) = acc + b' by ring] at hs
          rw [show T + (b' - b0) = T - b0 + b' by ring] at hs
          exact hs
      | succ n =>
          simp only [List.get?] at hget
          simp only [pySum_from, List.set] at hsum ⊢
          obtain ⟨b0, hb0, h'⟩ := exc_bind_ok hsum
          rw [hb0, ok_bind]
          exact ih _ _ _ hget h'

theorem mock_sum_ok : pySumBudgets MOCK_ITINERARY = .ok 620 := by
  simp [pySumBudgets, MOCK_ITINERARY, pySum_from, day_budget, pyGet, asNum, lookupField,
    ok_bind]

/-- C4 (amended): the cached total trip cost is recomputed on full
generation, including the fallback paths, so the invariant holds after the
generate handler; but a successful activity replacement leaves the cached
total unchanged while shifting the day sums by the cost difference, so
after a replacement whose new cost differs from the old one the cached
total no longer equals the sum of the days' dailyBudgetSummaryINR
values. -/
theorem C4_cached_total :
    (∀ (call_result : Except PyExc String) (json_loads : String → Except PyExc Json),
      pySumBudgets (generation_handler call_result json_loads).itinerary =
        .ok (generation_handler call_result json_loads).total_trip_cost) ∧
    (∀ (s : SessionState) (d a : Nat) (resp : Except PyExc Json) (s' : SessionState),
      swap_step s d a resp = .ok s' → s'.total_trip_cost = s.total_trip_cost) ∧
    (∀ (s : SessionState) (d a : Nat)
      (day oldAct newAct : Json) (acts rest : List Json)
      (th tm dsc dn ncj bj : Json) (oldC newC base T : Rat),
      s.itinerary.get? d = some day →
      subscr day "activities" = .ok (.arr acts) →
      acts.get? a = some oldAct →
      subscr day "theme" = .ok th →
      subscr oldAct "time" = .ok tm →
      subscr oldAct "description" = .ok dsc →
      subscr oldAct "estimatedCostINR" = .ok (.num oldC) →
      subscr day "day" = .ok dn →
      pyGet newAct "estimatedCostINR" (.num 0) = .ok ncj →
      asNum ncj = .ok newC →
      pyGet day "dailyBudgetSummaryINR" (.num 0) = .ok bj →
      asNum bj = .ok base →
      pySumBudgets s.itinerary = .ok T →
      s.total_trip_cost = T →
      ∀ s', swap_step s d a (.ok (.arr (newAct :: rest))) = .ok s' →
        pySumBudgets s'.itinerary = .ok (T - oldC + newC) ∧
        s'.total_trip_cost = T ∧
        (newC ≠ oldC → pySumBudgets s'.itinerary ≠ .ok s'.total_trip_cost)) := by
  refine ⟨?_, ?_, ?_⟩
  · intro call_result json_loads
    unfold generation_handler
    cases hat : generation_attempt call_result json_loads with
    | ok s =>
        unfold generation_attempt at hat
        obtain ⟨j, hj, hat⟩ := exc_bind_ok hat
        obtain ⟨data, hdata, hat⟩ := exc_bind_ok hat
        obtain ⟨days, hdays, hat⟩ := exc_bind_ok hat
        obtain ⟨total, htot, hat⟩ := exc_bind_ok hat
        cases hat
        simpa using htot
    | error e =>
        show pySumBudgets fallback_state.itinerary = .ok fallback_state.total_trip_cost
        unfold fallback_state
        rw [mock_sum_ok]
        exact mock_sum_ok
  · intro s d a resp s' h
    unfold swap_step at h
    cases hr : regenerate_activity s.itinerary d a resp "dailyBudgetSummaryINR" with
    | ok o =>
        rw [hr] at h
        simp only [Except.map] at h
        cases h
        rfl
    | error e =>
        rw [hr] at h
        simp [Except.map] at h
  · intro s d a day oldAct newAct acts rest th tm dsc dn ncj bj oldC newC base T
      h1 h2 h3 h4 h5 h6 h7 h8 h9 h9b h10 h10b hsum hpre s' hsw
    obtain ⟨dayF, hday, hlk⟩ := subscr_ok_obj h2
    have hregen := regen_success_eq s.itinerary d a "dailyBudgetSummaryINR" day oldAct
      newAct acts rest th tm dsc dn ncj bj oldC newC base
      h1 h2 h3 h4 h5 h6 h7 h8 h9 h9b h10 h10b
    unfold swap_step at hsw
    rw [hregen] at hsw
    simp only [Except.map] at hsw
    cases hsw
    have hbday : day_budget day = .ok base := by
      unfold day_budget
      rw [h10, ok_bind]
      exact h10b
    have hbday2 : day_budget
        (objSetJ (objSetJ day "dailyBudgetSummaryINR" (.num (base - oldC + newC)))
          "activities" (.arr (acts.set a newAct))) = .ok (base - oldC + newC) := by
      subst hday
      simp only [objSetJ, day_budget, pyGet]
      rw [lookup_setField_other "activities" "dailyBudgetSummaryINR" (by decide) _ _,
        lookup_setField_self]
      rfl
    have hsum' := pySum_set s.itinerary d day _ base (base - oldC + newC) T 0
      h1 hbday hbday2 hsum
    rw [show T - base + (base - oldC + newC) = T - oldC + newC by ring] at hsum'
    refine ⟨hsum', hpre, ?_⟩
    intro hne hconsistent
    have hc2 : pySum_from 0
        (s.itinerary.set d
          (objSetJ (objSetJ day "dailyBudgetSummaryINR" (.num (base - oldC + newC)))
            "activities" (.arr (acts.set a newAct)))) =
        Except.ok s.total_trip_cost := hconsistent
    rw [hsum'] at hc2
    have hT : T - oldC + newC = T := by
      have hj := Except.ok.inj hc2
      rw [hpre] at hj
      exact hj
    apply hne
    linarith [hT]

/-- C4: as stated the claim is false.  A concrete successful replacement
(old cost 400, new cost 100) on a consistent session leaves the cached
total at 400 while the day sums now add to 100. -/
theorem C4_counterexample :
    swap_step ⟨exItin, 400⟩ 0 0 (Except.ok (.arr [exAct100])) =
      .ok ⟨[.obj [("day", .num 1), ("theme", .str "Heritage"),
                  ("activities", .arr [exAct100]),
                  ("dailyBudgetSummaryINR", .num 100)]], 400⟩ ∧
    pySumBudgets [.obj [("day", .num 1), ("theme", .str "Heritage"),
                  ("activities", .arr [exAct100]),
                  ("dailyBudgetSummaryINR", .num 100)]] = .ok 100 ∧
    (100 : Rat) ≠ 400 := by
  refine ⟨?_, ?_, by norm_num⟩
  · have h := regen_success_eq exItin 0 0 "dailyBudgetSummaryINR" exDay exAct exAct100
      [exAct] [] (.str "Heritage") (.str "10:00 AM") (.str "Visit the fort") (.num 1)
      (.num 100) (.num 400) 400 100 400
      rfl rfl rfl rfl rfl rfl rfl rfl rfl rfl rfl rfl
    unfold swap_step
    rw [show (⟨exItin, 400⟩ : SessionState).itinerary = exItin from rfl, h]
    simp [Except.map, exItin, exDay, objSetJ, setField, List.set]
  · simp [pySumBudgets, pySum_from, day_budget, pyGet, asNum, lookupField, ok_bind]

/-- C4 witness: the amended theorem applied at concrete inputs, with the
generation part exercised on a failing call and the refinement part on the
concrete replacement of cost 400 by cost 100. -/
theorem C4_witness :
    pySumBudgets (generation_handler (Except.error (.apiError "service down"))
        (fun _ => .ok .null)).itinerary =
      .ok (generation_handler (Except.error (.apiError "service down"))
        (fun _ => .ok .null)).total_trip_cost ∧
    pySumBudgets (⟨[.obj [("day", .num 1), ("theme", .str "Heritage"),
          ("activities", .arr [exAct100]),
          ("dailyBudgetSummaryINR", .num 100)]], (400 : Rat)⟩ : SessionState).itinerary =
      .ok ((400 : Rat) - 400 + 100) ∧
    (⟨[.obj [("day", .num 1), ("theme", .str "Heritage"),
          ("activities", .arr [exAct100]),
          ("dailyBudgetSummaryINR", .num 100)]], (400 : Rat)⟩ : SessionState).total_trip_cost = 400 ∧
    pySumBudgets (⟨[.obj [("day", .num 1), ("theme", .str "Heritage"),
          ("activities", .arr [exAct100]),
          ("dailyBudgetSummaryINR", .num 100)]], (400 : Rat)⟩ : SessionState).itinerary ≠
      .ok (⟨[.obj [("day", .num 1), ("theme", .str "Heritage"),
          ("activities", .arr [exAct100]),
          ("dailyBudgetSummaryINR", .num 100)]], (400 : Rat)⟩ : SessionState).total_trip_cost := by
  have hsw : swap_step ⟨exItin, 400⟩ 0 0 (Except.ok (.arr [exAct100])) =
      .ok ⟨[.obj [("day", .num 1), ("theme", .str "Heritage"),
                  ("activities", .arr [exAct100]),
                  ("dailyBudgetSummaryINR", .num 100)]], 400⟩ := by
    have h := regen_success_eq exItin 0 0 "dailyBudgetSummaryINR" exDay exAct exAct100
      [exAct] [] (.str "Heritage") (.str "10:00 AM") (.str "Visit the fort") (.num 1)
      (.num 100) (.num 400) 400 100 400
      rfl rfl rfl rfl rfl rfl rfl rfl rfl rfl rfl rfl
    unfold swap_step
    rw [show (⟨exItin, 400⟩ : SessionState).itinerary = exItin from rfl, h]
    simp [Except.map, exItin, exDay, objSetJ, setField, List.set]
  have hc := (C4_cached_total.2.2) ⟨exItin, 400⟩ 0 0 exDay exAct exAct100 [exAct] []
    (.str "Heritage") (.str "10:00 AM") (.str "Visit the fort") (.num 1)
    (.num 100) (.num 400) 400 100 400 400
    rfl rfl rfl rfl rfl rfl rfl rfl rfl rfl rfl rfl
    (by simp [pySumBudgets, exItin, exDay, pySum_from, day_budget, pyGet, asNum,
      lookupField, ok_bind])
    rfl
    ⟨[.obj [("day", .num 1), ("theme", .str "Heritage"),
        ("activities", .arr [exAct100]),
        ("dailyBudgetSummaryINR", .num 100)]], 400⟩ hsw
  exact ⟨C4_cached_total.1 (Except.error (.apiError "service down")) (fun _ => .ok .null),
    hc.1, hc.2.1, hc.2.2 (by norm_num)⟩

theorem pyMax_ge (l : List ActRef) (x : ActRef) :
    ∀ e ∈ x :: l, e.cost ≤ (pyMax x l).cost := by
  induction l generalizing x with
  | nil =>
      intro e he
      simp only [List.mem_singleton] at he
      subst he
      exact le_refl _
  | cons y ys ih =>
      intro e he
      simp only [pyMax]
      by_cases hgt : y.cost > x.cost
      · rw [if_pos hgt]
        rcases List.mem_cons.mp he with hx | he'
        · subst hx
          exact le_trans (le_of_lt hgt) (ih y y (List.mem_cons_self y ys))
        · exact ih y e he'
      · rw [if_neg hgt]
        rcases List.mem_cons.mp he with hx | he'
        · subst hx
          exact ih e e (List.mem_cons_self e ys)
        · rcases List.mem_cons.mp he' with hy | he''
          · subst hy
            exact le_trans (le_of_not_lt hgt) (ih x x (List.mem_cons_self x ys))
          · exact ih x e (List.mem_cons.mpr (Or.inr he''))

theorem pyMax_first (l : List ActRef) (x : ActRef) :
    ∃ l₁ l₂, x :: l = l₁ ++ (pyMax x l) :: l₂ ∧
      ∀ e ∈ l₁, e.cost < (pyMax x l).cost := by
  induction l generalizing x with
  | nil => exact ⟨[], [], rfl, by simp⟩
  | cons y ys ih =>
      simp only [pyMax]
      by_cases hgt : y.cost > x.cost
      · rw [if_pos hgt]
        obtain ⟨L₁, L₂, heq, hlt⟩ := ih y
        refine ⟨x :: L₁, L₂, by rw [List.cons_append, ← heq], ?_⟩
        intro e he
        rcases List.mem_cons.mp he with hx | he'
        · subst hx
          exact lt_of_lt_of_le hgt (pyMax_ge ys y y (List.mem_cons_self y ys))
        · exact hlt e he'
      · rw [if_neg hgt]
        obtain ⟨L₁, L₂, heq, hlt⟩ := ih x
        cases L₁ with
        | nil =>
            simp only [List.nil_append] at heq
            injection heq with hx hys
            refine ⟨[], y :: ys, ?_, by simp⟩
            rw [List.nil_append, ← hx]
        | cons x1 L₁' =>
            simp only [List.cons_append] at heq
            injection heq with hx1 hys
            refine ⟨x :: y :: L₁', L₂, ?_, ?_⟩
            · rw [List.cons_append, List.cons_append, ← hys]
            · intro e he
              rcases List.mem_cons.mp he with hex | he'
              · subst hex
                subst hx1
                exact hlt e (List.mem_cons_self e L₁')
              · rcases List.mem_cons.mp he' with hey | he''
                · subst hey
                  have hyx : e.cost ≤ x.cost := le_of_not_lt hgt
                  have hxlt : x.cost < (pyMax x ys).cost := by
                    apply hlt
                    rw [← hx1]
                    exact List.mem_cons_self x L₁'
                  exact lt_of_le_of_lt hyx hxlt
                · exact hlt e (List.mem_cons.mpr (Or.inr he''))

theorem mem_acts_entries {e : ActRef} (d : Nat) :
    ∀ (a0 : Nat) (acts : List Activity), e ∈ acts_entries d a0 acts →
      e.day_idx = d ∧ a0 ≤ e.act_idx := by
  intro a0 acts
  induction acts generalizing a0 with
  | nil => intro h; simp [acts_entries] at h
  | cons act rest ih =>
      intro h
      rcases List.mem_cons.mp h with hx | h'
      · subst hx
        exact ⟨rfl, le_refl _⟩
      · obtain ⟨hd, ha⟩ := ih (a0 + 1) h'
        exact ⟨hd, le_trans (Nat.le_succ a0) ha⟩

theorem pairwise_acts_entries (d : Nat) :
    ∀ (a0 : Nat) (acts : List Activity), (acts_entries d a0 acts).Pairwise lexBefore := by
  intro a0 acts
  induction acts generalizing a0 with
  | nil => exact List.Pairwise.nil
  | cons act rest ih =>
      refine List.Pairwise.cons ?_ (ih (a0 + 1))
      intro e he
      obtain ⟨hd, ha⟩ := mem_acts_entries d (a0 + 1) rest he
      exact Or.inr ⟨hd.symm, lt_of_lt_of_le (Nat.lt_succ_self a0) ha⟩

theorem mem_all_from {e : ActRef} :
    ∀ (d0 : Nat) (l : List Day), e ∈ all_activities_from d0 l → d0 ≤ e.day_idx := by
  intro d0 l
  induction l generalizing d0 with
  | nil => intro h; simp [all_activities_from] at h
  | cons day rest ih =>
      intro h
      rcases List.mem_append.mp h with h1 | h2
      · exact le_of_eq (mem_acts_entries d0 0 _ h1).1.symm
      · exact le_trans (Nat.le_succ d0) (ih (d0 + 1) h2)

theorem pairwise_all_from :
    ∀ (d0 : Nat) (l : List Day), (all_activities_from d0 l).Pairwise lexBefore := by
  intro d0 l
  induction l generalizing d0 with
  | nil => exact List.Pairwise.nil
  | cons day rest ih =>
      refine List.pairwise_append.mpr ⟨pairwise_acts_entries d0 0 _, ih (d0 + 1), ?_⟩
      intro a ha b hb
      have hda := (mem_acts_entries d0 0 _ ha).1
      have hdb := mem_all_from (d0 + 1) rest hb
      exact Or.inl (by omega)

/-- C5: the reduce-highest-cost scan targets an activity whose cost is
greater than or equal to every activity's cost across all days; it is the
first entry of the flat scan attaining that cost, and every activity of
equal cost occurs at the same position or later in day order then activity
order. -/
theorem C5_most_expensive (itin : List Day) (m : ActRef)
    (h : most_expensive itin = some m) :
    m ∈ all_activities itin ∧
    (∀ e ∈ all_activities itin, e.cost ≤ m.cost) ∧
    (∃ l₁ l₂, all_activities itin = l₁ ++ m :: l₂ ∧ ∀ e ∈ l₁, e.cost < m.cost) ∧
    (∀ e ∈ all_activities itin, e.cost = m.cost → m = e ∨ lexBefore m e) := by
  unfold most_expensive at h
  cases hall : all_activities itin with
  | nil => rw [hall] at h; cases h
  | cons x xs =>
      rw [hall] at h
      have hm : m = pyMax x xs := (Option.some.inj h).symm
      subst hm
      obtain ⟨l₁, l₂, heq, hlt⟩ := pyMax_first xs x
      have hmem : pyMax x xs ∈ x :: xs := by
        rw [heq]
        exact List.mem_append.mpr (Or.inr (List.mem_cons_self _ _))
      have hpw : (x :: xs).Pairwise lexBefore := by
        rw [← hall]
        exact pairwise_all_from 0 itin
      refine ⟨hmem, fun e he => pyMax_ge xs x e he, ⟨l₁, l₂, heq, hlt⟩, ?_⟩
      intro e he hcost
      rw [heq] at he
      rcases List.mem_append.mp he with h1 | h2
      · exact absurd (hlt e h1) (not_lt.mpr (le_of_eq hcost.symm))
      · rcases List.mem_cons.mp h2 with hx | h2'
        · exact Or.inl hx.symm
        · right
          rw [heq] at hpw
          have := (List.pairwise_append.mp hpw).2.1
          exact (List.pairwise_cons.mp this).1 e h2'

/-- C5 witness: the specification scenario, one day with costs 50 and 350;
the scan targets day index 0, activity index 1, and its cost bounds every
entry. -/
theorem C5_witness :
    most_expensive c5Itin = some ⟨350, 0, 1⟩ ∧
    ∀ e ∈ all_activities c5Itin, e.cost ≤ (⟨350, 0, 1⟩ : ActRef).cost :=
  ⟨by decide, (C5_most_expensive c5Itin ⟨350, 0, 1⟩ (by decide)).2.1⟩

theorem sus_inner_fold (acts : List Activity) (p : Nat × Nat) :
    acts.foldl
      (fun (q : Nat × Nat) act =>
        let q1 := if is_green act then (q.1 + 1, q.2) else q
        if has_transport act then (q1.1, q1.2 + 1) else q1) p =
      (p.1 + acts.countP is_green, p.2 + acts.countP has_transport) := by
  induction acts generalizing p with
  | nil => simp
  | cons act rest ih =>
      simp only [List.foldl, List.countP_cons]
      rw [ih]
      by_cases hg : is_green act <;> by_cases ht : has_transport act <;>
        simp [hg, ht, Prod.ext_iff] <;> omega

theorem sus_outer_fold (days : List Day) (p : Nat × Nat) :
    days.foldl
      (fun (p : Nat × Nat) day =>
        (day.activities.getD []).foldl
          (fun (q : Nat × Nat) act =>
            let q1 := if is_green act then (q.1 + 1, q.2) else q
            if has_transport act then (q1.1, q1.2 + 1) else q1) p) p =
      (p.1 + (flat_acts days).countP is_green,
       p.2 + (flat_acts days).countP has_transport) := by
  induction days generalizing p with
  | nil => simp [flat_acts]
  | cons day rest ih =>
      simp only [List.foldl]
      rw [sus_inner_fold, ih]
      simp only [flat_acts, List.flatMap_cons, List.countP_append]
      rw [Prod.mk.injEq]
      constructor <;> omega

theorem has_transport_false_nil {act : Activity} (h : has_transport act = false) :
    transport_text act = [] := by
  unfold has_transport at h
  simpa using h

/-- C6: the sustainability score is exactly 3 when no activity carries
non-empty transportation text; otherwise it is the rounded green ratio
clamped to the range 1 to 5, with the counts as the specification words
them; and an itinerary whose every non-empty transportation text contains
"walk" (after lowercasing) scores exactly 5. -/
theorem C6_sustainability (itin : List Day) :
    (mentionedCount itin = 0 → calculate_sustainability itin = 3) ∧
    (mentionedCount itin ≠ 0 → calculate_sustainability itin =
      max 1 (min 5 (pyRound (((greenCount itin : Rat) / (mentionedCount itin : Rat)) * 5)))) ∧
    ((∀ act ∈ flat_acts itin, has_transport act = true →
        containsSub "walk".data (transport_text act) = true) →
      mentionedCount itin ≠ 0 → calculate_sustainability itin = 5) := by
  have hfold : calculate_sustainability itin =
      if mentionedCount itin = 0 then 3
      else max 1 (min 5 (pyRound (((greenCount itin : Rat) / (mentionedCount itin : Rat)) * 5))) := by
    unfold calculate_sustainability
    rw [sus_outer_fold]
    simp only [Nat.zero_add]
    rfl
  refine ⟨?_, ?_, ?_⟩
  · intro h0
    rw [hfold, if_pos h0]
  · intro hne
    rw [hfold, if_neg hne]
  · intro hwalk hne
    have hGM : greenCount itin = mentionedCount itin := by
      unfold greenCount mentionedCount
      apply List.countP_congr
      intro act hmem
      cases hht : has_transport act with
      | true =>
          have hw := hwalk act hmem hht
          unfold is_green
          rw [hw]
          simp
      | false =>
          have hnil := has_transport_false_nil hht
          unfold is_green
          rw [hnil]
          simp [containsSub, isPrefixOfChars]
  -- with every mentioned activity green, the ratio is exactly 1
    rw [hfold, if_neg hne, hGM]
    have hm : ((mentionedCount itin : Rat)) ≠ 0 := by
      exact_mod_cast hne
    rw [div_self hm]
    norm_num [pyRound]

/-- C6 witness: the theorem applied to a concrete itinerary with no
transportation text (score 3) and to a concrete itinerary whose every
transportation string contains "walk" (score 5). -/
theorem C6_witness :
    calculate_sustainability c6NoneItin = 3 ∧
    calculate_sustainability c6WalkItin = 5 :=
  ⟨(C6_sustainability c6NoneItin).1 (by decide),
   (C6_sustainability c6WalkItin).2.2 (by decide) (by decide)⟩

/-- C9: the generate handler accepts a parsed list as-is; a dict carrying
the key "itinerary" silently contributes the value under that key,
whatever its type, with no further shape check; a dict without the key and
every other non-list value raise the shape ValueError. -/
theorem C9_shape_resolution :
    (∀ xs : List Json, resolve_shape (.arr xs) = .ok (.arr xs)) ∧
    (∀ (fields : List (String × Json)) (v : Json),
      lookupField "itinerary" fields = some v →
        resolve_shape (.obj fields) = .ok v) ∧
    (∀ fields : List (String × Json), lookupField "itinerary" fields = none →
      resolve_shape (.obj fields) = .error (.valueError shape_error_msg)) ∧
    resolve_shape .null = .error (.valueError shape_error_msg) ∧
    (∀ b, resolve_shape (.bool b) = .error (.valueError shape_error_msg)) ∧
    (∀ n, resolve_shape (.num n) = .error (.valueError shape_error_msg)) ∧
    (∀ s, resolve_shape (.str s) = .error (.valueError shape_error_msg)) := by
  refine ⟨fun xs => rfl, ?_, ?_, rfl, fun b => rfl, fun n => rfl, fun s => rfl⟩
  · intro fields v h
    simp [resolve_shape, h]
  · intro fields h
    simp [resolve_shape, h]

/-- C9 witness: a dict response carrying a non-list value under the key
"itinerary" is silently accepted, the value passed through unchecked. -/
theorem C9_witness :
    resolve_shape (.obj [("itinerary", .num 7)]) = .ok (.num 7) :=
  C9_shape_resolution.2.1 [("itinerary", .num 7)] (.num 7) rfl

/-- C8: the three generation failure kinds surface as distinct exception
values: the remote call failure as APIError, the parse failure as
JSONDecodeError, the shape failure as the ValueError raised by the
handler; although JSONDecodeError is a subclass of ValueError in Python,
isinstance checks applied in subclass-first order recover the kind of
each value, so a caller receiving the exception can distinguish which of
the three occurred. -/
theorem C8_failures_distinguishable (m1 m2 t : String) :
    generate_itinerary (Except.error (.apiError m1)) (fun _ => .ok .null) =
      .error (.apiError m1) ∧
    generate_itinerary (Except.ok t) (fun _ => .error (.jsonDecodeError m2)) =
      .error (.jsonDecodeError m2) ∧
    resolve_shape (.num 5) = .error (.valueError shape_error_msg) ∧
    classify_failure (.apiError m1) = .service ∧
    classify_failure (.jsonDecodeError m2) = .parse ∧
    classify_failure (.valueError shape_error_msg) = .shape ∧
    isValueError (.jsonDecodeError m2) = true ∧
    GenFailureKind.service ≠ .parse ∧
    GenFailureKind.service ≠ .shape ∧
    GenFailureKind.parse ≠ .shape :=
  ⟨rfl, rfl, rfl, rfl, rfl, rfl, rfl, by decide, by decide, by decide⟩
